import Mathlib

/-!
Verification development for the blink-and-vote repository: a browser voting
application that gates ballot casting behind face enrollment, a per-session
face match, and a blink-based liveness check.

The embedding below translates the relevant program logic into Lean:

* Pure numeric routines (`calculateEAR`'s radicands, `euclideanDistance`'s
  radicand, the enrollment descriptor average) become Lean functions over `ℚ`.
  The source compares Euclidean distances (square roots) against constant
  thresholds; since square root is strictly monotone on nonnegative reals,
  such comparisons are embedded as comparisons of the (rational) squared
  distance against the squared threshold.  Theorems that speak about the
  distance itself use `Real.sqrt` applied to these rational radicands.
* The timer-driven detectors become functions applied once per interval
  firing.  JavaScript closure semantics is made explicit where it matters:
  the interval and timeout callbacks of `startBlinkDetection`
  (BlinkVerification.tsx) read the React state values frozen in the creating
  render's closure (a `BlinkClosure`), while the `setX` calls they make write
  the live component store (a `BlinkStore`); a functional updater such as
  `setBlinkCount(prev => prev + 1)` reads the live store.  The enrollment
  average in `captureFace` likewise iterates the render-frozen
  `allDescriptors` closure, which at the final capture does not yet contain
  the just-captured descriptor.  By contrast `startVerification`
  (FaceVerification) mutates a plain local `attempts` and its closure values
  (`storedDescriptor`, `isActive`) are correct when the button is clicked, so
  it is embedded as an ordinary state-transition function.
* The page-level session flow (the `Index` component's `appState` and its
  handlers) becomes a step function over an `AppState` type and an event type,
  with `run` folding a list of events from the initial `auth` state.
* The external vote store (the `votes` table with its
  `UNIQUE(user_id, election_id)` constraint, and `submitVote`'s handling of
  error code 23505) becomes a list-backed store whose insert fails exactly on
  a duplicate (user, election) pair.
-/

namespace BlinkAndVote

/-! ## Signal extractor (BlinkVerification.tsx `distance`, `calculateEAR`;
FaceVerification `faceapi.euclideanDistance`) -/

/-- Squared planar distance between two points, the radicand of the source's
`distance(p1, p2) = Math.sqrt(Math.pow(p2.x - p1.x, 2) + Math.pow(p2.y - p1.y, 2))`
(BlinkVerification.tsx lines 154-156).  The square root itself is applied with
`Real.sqrt` in theorem statements. -/
def distanceSq (p1 p2 : ℚ × ℚ) : ℚ :=
  (p2.1 - p1.1) ^ 2 + (p2.2 - p1.2) ^ 2

/-- The six ordered eye landmark points consumed by `calculateEAR`
(`eye[0]` .. `eye[5]`). -/
structure EyePoints where
  p0 : ℚ × ℚ
  p1 : ℚ × ℚ
  p2 : ℚ × ℚ
  p3 : ℚ × ℚ
  p4 : ℚ × ℚ
  p5 : ℚ × ℚ

/-- Radicand of the first vertical term `A = distance(eye[1], eye[5])`
(BlinkVerification.tsx line 146). -/
def earA (e : EyePoints) : ℚ := distanceSq e.p1 e.p5

/-- Radicand of the second vertical term `B = distance(eye[2], eye[4])`
(line 147). -/
def earB (e : EyePoints) : ℚ := distanceSq e.p2 e.p4

/-- Radicand of the horizontal term `C = distance(eye[0], eye[3])` (line 149). -/
def earC (e : EyePoints) : ℚ := distanceSq e.p0 e.p3

/-- Function `calculateEAR` returns `(A + B) / (2.0 * C)` (line 151).  The division is
well defined (the JavaScript result is a finite number rather than
Infinity/NaN) exactly when the horizontal distance `C` is nonzero; this
decidable guard captures that definedness condition. -/
def earDefined (e : EyePoints) : Bool := decide (earC e ≠ 0)

/-- Squared Euclidean distance between two descriptor vectors, the radicand of
`faceapi.euclideanDistance(storedDescriptor, detection.descriptor)` used at
FaceVerification line 834. -/
def euclideanDistanceSq (a b : List ℚ) : ℚ :=
  (List.zipWith (fun x y => (x - y) ^ 2) a b).sum

/-! ## Enrollment aggregator (FaceRegistration.tsx `captureFace`, lines 139-158) -/

/-- The averaged descriptor computed on the final capture
(FaceRegistration.tsx lines 140-147):
`avgDescriptor[i] = (Σ_desc desc[i]) / allDescriptors.length`, with the length
taken from `allDescriptors[0].length`. -/
def avgDescriptor (descs : List (List ℚ)) : List ℚ :=
  (List.range (descs.headD []).length).map
    (fun i => (descs.map (fun d => d.getD i 0)).sum / descs.length)

/-- Profile fields written by the enrollment `upsert`
(FaceRegistration.tsx lines 150-158) and read back by `loadUserProfile`. -/
structure Profile where
  user_id : String
  email : String
  face_descriptor : Option (List ℚ)
  face_image_url : Option String
  is_verified : Bool

/-- The profile row upserted when the final capture completes
(FaceRegistration.tsx lines 150-158): the averaged descriptor, the public
image URL, and `is_verified: true`.  `descs` is the descriptor list the
averaging loop actually iterates - the render-scope `allDescriptors`
closure of the final `captureFace` call. -/
def finalizeEnrollment (userId email : String) (descs : List (List ℚ))
    (publicUrl : String) : Profile :=
  { user_id := userId
    email := email
    face_descriptor := some (avgDescriptor descs)
    face_image_url := some publicUrl
    is_verified := true }

/-- The descriptor the program actually persists for a session whose three
captures are `d1`, `d2`, `d3`.  The third `captureFace` call runs in a render
whose `allDescriptors` const holds `[d1, d2]`; `setAllDescriptors(prev =>
[...prev, d3])` at line 106 writes the React store but never the local
binding, and the averaging loop at lines 140-147 iterates that stale local,
so the third descriptor is excluded and the sum is divided by 2. -/
def enrollmentStoredDescriptor (d1 d2 d3 : List ℚ) : List ℚ :=
  avgDescriptor [d1, d2]

/-! ## Session state machine (the `Index` page component, src/unnamed/part_001) -/

/-- States of `type AppState` (part_001 line 28). -/
inductive AppState where
  | auth
  | faceRegistration
  | faceVerification
  | blinkVerification
  | voting
  | complete
deriving DecidableEq, Repr

/-- The user/system events that drive `setAppState` in the Index component:
profile loading after auth (`loadUserProfile`), the completion and cancel
callbacks wired to each child component, the "Vote in Another Election"
button (`resetToVoting`), and sign-out. -/
inductive Event where
  /-- Event: `loadUserProfile` finished: carries whether the profile has a face
  descriptor and whether it is marked verified (part_001 lines 109-114);
  a missing profile is created and routed like an unverified one
  (lines 85-104). -/
  | profileLoaded (hasDescriptor : Bool) (isVerified : Bool)
  /-- Callback `handleFaceRegistrationComplete` (part_001 lines 141-146). -/
  | regComplete
  /-- Callback `handleFaceVerificationComplete success` (lines 148-155). -/
  | verifyComplete (success : Bool)
  /-- FaceVerification `onCancel` (line 280). -/
  | verifyCancel
  /-- Callback `handleBlinkComplete` (lines 157-159). -/
  | blinkComplete
  /-- BlinkVerification `onCancel` (line 287). -/
  | blinkCancel
  /-- Callback `handleVoteComplete` (lines 161-163). -/
  | voteComplete
  /-- Button handler `resetToVoting` on the complete screen (lines 165-167, 331). -/
  | voteAgain
  /-- Callback `handleSignOut` (lines 123-135). -/
  | signOut
deriving DecidableEq, Repr

open AppState Event in
/-- One transition of the Index page's `appState`.  Each child component's
callback can only fire while that component is mounted, i.e. while `appState`
is the state that renders it (part_001 lines 264-337); an event arriving in
any other state is a no-op.  `profileLoaded` is raised by the auth-state
listener and can fire at any time (lines 37-68); `signOut` likewise. -/
def step (s : AppState) (e : Event) : AppState :=
  match s, e with
  | _, profileLoaded hasDescriptor isVerified =>
      -- part_001 lines 109-114: `if (!profile.face_descriptor || !profile.is_verified)`
      if !hasDescriptor || !isVerified then faceRegistration else faceVerification
  | _, signOut => auth
  | faceRegistration, regComplete => faceVerification
  | faceVerification, verifyComplete success =>
      if success then blinkVerification else faceVerification
  | faceVerification, verifyCancel => faceRegistration
  | blinkVerification, blinkComplete => voting
  | blinkVerification, blinkCancel => faceVerification
  | voting, voteComplete => complete
  | complete, voteAgain => faceVerification
  | _, _ => s

/-- Fold a list of events from a starting state. -/
def run (s : AppState) (es : List Event) : AppState :=
  es.foldl step s

/-- The entry decision of `loadUserProfile` on a loaded profile
(part_001 lines 109-114): a profile without a face descriptor or not marked
verified is routed to face registration, otherwise to face verification. -/
def profileEntryState (p : Profile) : AppState :=
  if p.face_descriptor.isNone || !p.is_verified
  then .faceRegistration else .faceVerification

/-! ## Vote store and `submitVote` (VotingInterface component, FaceRegistration.tsx
lines 445-504, and the `votes` table of src/unnamed/part_000 lines 33-46) -/

/-- The row built by `submitVote`'s insert (FaceRegistration.tsx lines 455-465).
The `faceOutcome`/`blinkOutcome` parameters stand for the actual results of
the face-verification and blink-verification sessions of the current run; the
source's `VotingInterface` component receives only `userId` and a completion
callback as props, so no verification outcome flows into `submitVote`, and the
insert hard-codes `face_verified: true, blink_verified: true`. -/
structure VoteInsert where
  user_id : String
  election_id : String
  selected_option : String
  face_verified : Bool
  blink_verified : Bool
  ip_address : String
  user_agent : String
deriving DecidableEq, Repr

/-- The insert payload constructed at FaceRegistration.tsx lines 455-465.  The
two leading `Bool` parameters are the run's verification outcomes (see
`VoteInsert`); the body never consults them. -/
def submitVoteRow (faceOutcome blinkOutcome : Bool) (userId electionId
    selectedOption ipAddress userAgent : String) : VoteInsert :=
  { user_id := userId
    election_id := electionId
    selected_option := selectedOption
    face_verified := true
    blink_verified := true
    ip_address := ipAddress
    user_agent := userAgent }

/-- Postgres unique-constraint violation error code checked at
FaceRegistration.tsx line 468. -/
def uniqueViolationCode : String := "23505"

/-- The external `votes` store, modelled as the list of inserted rows.  The
table declares `UNIQUE(user_id, election_id)` (part_000 line 45), so an insert
of a row whose (user_id, election_id) pair is already present fails with error
code 23505 and leaves the table unchanged; otherwise the row is appended. -/
def insertVote (store : List VoteInsert) (row : VoteInsert) :
    Except String (List VoteInsert) :=
  if store.any (fun r => r.user_id = row.user_id ∧ r.election_id = row.election_id)
  then .error uniqueViolationCode
  else .ok (store ++ [row])

/-- User-visible outcome of one `submitVote` call. -/
inductive SubmitOutcome where
  /-- Outcome shown as `toast.success(...)`, vote submitted (line 489). -/
  | success
  /-- Outcome shown as `toast.error(...)`, already voted in this election (line 469). -/
  | alreadyVoted
  /-- Outcome shown as `toast.error(...)`, failed to submit vote (line 472). -/
  | genericFailure
deriving DecidableEq, Repr

/-- Function `submitVote` (FaceRegistration.tsx lines 445-504): perform one insert; on
error code 23505 report the specific already-voted condition, on any other
error report the generic failure; in both error cases return without retrying,
so the store is left as the insert left it (unchanged). -/
def submitVote (store : List VoteInsert) (faceOutcome blinkOutcome : Bool)
    (userId electionId selectedOption ipAddress userAgent : String) :
    List VoteInsert × SubmitOutcome :=
  match insertVote store
      (submitVoteRow faceOutcome blinkOutcome userId electionId selectedOption
        ipAddress userAgent) with
  | .error code =>
      (store, if code = uniqueViolationCode then .alreadyVoted else .genericFailure)
  | .ok store' => (store', .success)

/-- At most one row per (user_id, election_id) pair. -/
def uniquePairs (store : List VoteInsert) : Prop :=
  store.Pairwise (fun a b => ¬(a.user_id = b.user_id ∧ a.election_id = b.election_id))

/-! ## Blink detector (BlinkVerification.tsx `startBlinkDetection`,
lines 80-141) -/

/-- Values of the `status` state of BlinkVerification (line 23). -/
inductive BlinkStatus where
  | waiting
  | detecting
  | completed
  | failed
deriving DecidableEq, Repr

/-- The React state values of the BlinkVerification component as frozen in
the closure of one `startBlinkDetection` call.  The interval callback
(lines 83-131) and the timeout callback (lines 134-140) are ordinary
JavaScript closures over the render that created them: `isActive`,
`isEyeClosed`, `lastBlinkTime`, `blinkCount` and `status` inside them are
the values of the creating render, and the component's `setX` calls never
change these bindings.  Every firing of the same interval or timeout reads
the same frozen values. -/
structure BlinkClosure where
  isActive : Bool
  isEyeClosed : Bool
  lastBlinkTime : ℕ
  blinkCount : ℕ
  status : BlinkStatus
deriving DecidableEq, Repr

/-- The live React store of the BlinkVerification component: what the `setX`
calls write (and what the next render would read).  `cameraActive` is the
camera stream held by `startCamera`/`stopCamera`, `intervalActive` whether
the polling interval is installed. -/
structure BlinkStore where
  blinkCount : ℕ
  isEyeClosed : Bool
  lastBlinkTime : ℕ
  status : BlinkStatus
  cameraActive : Bool
  intervalActive : Bool
deriving DecidableEq, Repr

/-- Constant `requiredBlinks = 3` (BlinkVerification.tsx line 25). -/
def requiredBlinks : ℕ := 3

/-- EAR threshold `blinkThreshold = 0.25` (line 102). -/
def blinkThreshold : ℚ := 1 / 4

/-- Auto-fail delay of the `setTimeout` at lines 134-140. -/
def blinkTimeoutMs : ℕ := 30000

/-- The closure of a `startBlinkDetection` call made from a render with the
initial state values and an active camera: counters at their initial values
(lines 20-22), `status` still `waiting` - `setStatus('detecting')` at
line 81 runs inside the same call, after the closure values are fixed, and
the button paths that can invoke `startBlinkDetection` render only while
`status` is `waiting` or `failed` (lines 241-257).  `isActive := true` is
the most favourable case: on the mount path (`startCamera` line 60) the
creating render even has `isActive = false`. -/
def startBlinkClosure : BlinkClosure :=
  { isActive := true
    isEyeClosed := false
    lastBlinkTime := 0
    blinkCount := 0
    status := .waiting }

/-- The live store right after `startBlinkDetection` ran: `setStatus('detecting')`
(line 81) has been applied to the store, counters are at their initial or
reset values (lines 20-22, 244-247), camera and interval running. -/
def initialBlinkStore : BlinkStore :=
  { blinkCount := 0
    isEyeClosed := false
    lastBlinkTime := 0
    status := .detecting
    cameraActive := true
    intervalActive := true }

/-- One firing of the 100ms detection interval (BlinkVerification.tsx
lines 83-131) on a tick whose detection succeeded, given the averaged eye
aspect ratio `avgEAR` of the frame and the current clock `currentTime`
(`Date.now()`), in milliseconds:
* guard (line 84): if the closure's `isActive` is false the tick returns at
  once;
* closing edge (lines 105-108): if `avgEAR < blinkThreshold` and the
  closure's `isEyeClosed` is false and more than 500ms passed since the
  closure's `lastBlinkTime`, write `isEyeClosed := true` to the store;
* opening edge (lines 109-127): if `avgEAR ≥ blinkThreshold` and the
  closure's `isEyeClosed` is true and more than 200ms passed since the
  closure's `lastBlinkTime`, write the incremented count (the functional
  updater `prev => prev + 1` at line 111 reads the live store), the
  completion status when the count reaches `requiredBlinks`, the timestamp
  and `isEyeClosed := false` to the store.
The guards read the closure; the writes go to the store. -/
def blinkTickStale (c : BlinkClosure) (store : BlinkStore) (avgEAR : ℚ)
    (currentTime : ℕ) : BlinkStore :=
  if !c.isActive then store
  else if avgEAR < blinkThreshold then
    if !c.isEyeClosed && decide (currentTime - c.lastBlinkTime > 500) then
      { store with isEyeClosed := true }
    else store
  else
    if c.isEyeClosed && decide (currentTime - c.lastBlinkTime > 200) then
      { store with
        blinkCount := store.blinkCount + 1
        status := if store.blinkCount + 1 ≥ requiredBlinks then .completed else store.status
        lastBlinkTime := currentTime
        isEyeClosed := false }
    else store

/-- Feed a sequence of (avgEAR, timestamp) samples to one interval's callback
(all firings share the same closure `c`). -/
def blinkRunStale (c : BlinkClosure) (store : BlinkStore)
    (samples : List (ℚ × ℕ)) : BlinkStore :=
  samples.foldl (fun s p => blinkTickStale c s p.1 p.2) store

/-- The auto-fail `setTimeout` callback scheduled `blinkTimeoutMs` after
detection starts (BlinkVerification.tsx lines 134-140): it reads `blinkCount`
and `status` from its closure `c` - the creating render's values - and only
if `c.blinkCount < requiredBlinks` and `c.status = 'detecting'` does it set
status `failed` and stop the camera (`stopCamera` also clears the polling
interval, lines 68-78). -/
def blinkTimeoutFireStale (c : BlinkClosure) (store : BlinkStore) : BlinkStore :=
  if c.blinkCount < requiredBlinks ∧ c.status = .detecting then
    { store with status := .failed, cameraActive := false, intervalActive := false }
  else store

/-! ## Face matcher (FaceVerification component, FaceRegistration.tsx
lines 795-867) -/

/-- Values of `verificationStatus` (line 720). -/
inductive VerifyStatus where
  | waiting
  | verifying
  | success
  | failed
deriving DecidableEq, Repr

/-- Audit rows inserted by the face matcher into `audit_logs`. -/
inductive AuditEntry where
  /-- Row with action FACE_VERIFICATION_FAILED and a reason detail (lines 811-815). -/
  | verificationFailed (reason : String)
  /-- Row with action FACE_VERIFICATION_SUCCESS and details distance, threshold
  and attempts (lines 847-855); distance and threshold are recorded here by
  their squares, which determine them (both are nonnegative). -/
  | verificationSuccess (distanceSq thresholdSq : ℚ) (attempts : ℕ)
deriving DecidableEq, Repr

/-- State of one face-verification session: the local `attempts` counter, the
`verificationStatus`, whether the polling interval is installed, the audit
rows emitted so far, and the stored reference descriptor. -/
structure VerifyState where
  attempts : ℕ
  status : VerifyStatus
  intervalActive : Bool
  audit : List AuditEntry
  reference : List ℚ
deriving DecidableEq, Repr

/-- Constant `maxAttempts = 50` (line 801). -/
def maxAttempts : ℕ := 50

/-- Polling period of the verification interval (line 866). -/
def verifyPollMs : ℕ := 100

/-- Square of the match threshold `0.6` (line 835): the source's comparison
`distance < 0.6` of the Euclidean distance is embedded as
`euclideanDistanceSq < (3/5)^2 = 9/25`. -/
def matchThresholdSq : ℚ := 9 / 25

/-- Fresh session at `startVerification` (lines 795-801): `attempts = 0`,
status `verifying`, interval installed, no audit rows yet. -/
def freshVerifyState (reference : List ℚ) : VerifyState :=
  { attempts := 0
    status := .verifying
    intervalActive := true
    audit := []
    reference := reference }

/-- The attempt body of one verification tick (FaceVerification lines
823-862): increment `attempts`; a tick with no detection does nothing more
(line 831); a detected descriptor at squared distance below
`matchThresholdSq` from the reference sets status `success`, clears the
interval, and inserts the success audit row carrying the squared distance,
the squared threshold, and the attempt count (lines 839-856). -/
def verifyAttempt (st : VerifyState) : Option (List ℚ) → VerifyState
  | none => { st with attempts := st.attempts + 1 }
  | some descriptor =>
      if euclideanDistanceSq st.reference descriptor < matchThresholdSq then
        { st with
          attempts := st.attempts + 1
          status := .success
          intervalActive := false
          audit := st.audit ++
            [.verificationSuccess (euclideanDistanceSq st.reference descriptor)
              matchThresholdSq (st.attempts + 1)] }
      else { st with attempts := st.attempts + 1 }

/-- One firing of the 100ms verification interval (lines 803-866), with the
camera active, given the frame's detection result: if `attempts ≥ maxAttempts`
already, set status `failed`, insert the timeout audit row, and clear the
interval (lines 804-821); otherwise run `verifyAttempt` on the tick's
detection result. -/
def verifyTick (st : VerifyState) (det : Option (List ℚ)) : VerifyState :=
  if st.attempts ≥ maxAttempts then
    { st with
      status := .failed
      audit := st.audit ++ [.verificationFailed "timeout"]
      intervalActive := false }
  else verifyAttempt st det

/-- Feed a sequence of per-tick detections; the interval stops firing once it
has been cleared. -/
def verifyRun (st : VerifyState) : List (Option (List ℚ)) → VerifyState
  | [] => st
  | d :: ds => if st.intervalActive then verifyRun (verifyTick st d) ds else st

/-- A tick input that does not match the reference: either no face detected or
a descriptor at squared distance at least `matchThresholdSq`. -/
def nonMatching (reference : List ℚ) (det : Option (List ℚ)) : Prop :=
  ∀ descriptor, det = some descriptor →
    ¬ euclideanDistanceSq reference descriptor < matchThresholdSq

/-! ## Theorems -/

/-- Squared planar distance vanishes exactly on equal points. -/
theorem distanceSq_eq_zero_iff (p q : ℚ × ℚ) : distanceSq p q = 0 ↔ p = q := by
  unfold distanceSq
  rw [add_eq_zero_iff_of_nonneg (sq_nonneg _) (sq_nonneg _), sq_eq_zero_iff, sq_eq_zero_iff,
    sub_eq_zero, sub_eq_zero, Prod.ext_iff]
  exact ⟨fun ⟨h1, h2⟩ => ⟨h1.symm, h2.symm⟩, fun ⟨h1, h2⟩ => ⟨h1.symm, h2.symm⟩⟩

/-- C2: every vote row built by `submitVote` carries `face_verified = true` and
`blink_verified = true` as client-set constants: the row is identical across
two runs whose verification sessions ended differently, as the source never
reads the verification outcomes when building the insert. -/
theorem submitVote_flags_constant :
    ∀ (f1 b1 f2 b2 : Bool) (userId electionId opt ip ua : String),
      (submitVoteRow f1 b1 userId electionId opt ip ua).face_verified = true ∧
      (submitVoteRow f1 b1 userId electionId opt ip ua).blink_verified = true ∧
      submitVoteRow f1 b1 userId electionId opt ip ua
        = submitVoteRow f2 b2 userId electionId opt ip ua := by
  intro f1 b1 f2 b2 userId electionId opt ip ua
  exact ⟨rfl, rfl, rfl⟩

/-- C5 (code bug): the claim says the detector transitions to `failed` (and
stops camera and polling) when 30000ms pass in `detecting` with fewer than 3
blinks, but the `setTimeout` callback reads `status` from its creating
render's closure, which is `waiting` or `failed` - `setStatus('detecting')`
at line 81 runs after the closure is fixed and the invoking renders show the
start buttons only in those states - so the guard `status === 'detecting'`
at line 135 never passes: the timeout firing is a no-op, the store keeps
status `detecting` with the camera and interval still running. -/
theorem blink_timeout_never_fires :
    (∀ (c : BlinkClosure) (store : BlinkStore), c.status ≠ .detecting →
      blinkTimeoutFireStale c store = store) ∧
    startBlinkClosure.status = .waiting ∧
    initialBlinkStore.blinkCount < requiredBlinks ∧
    initialBlinkStore.status = .detecting ∧
    blinkTimeoutFireStale startBlinkClosure initialBlinkStore = initialBlinkStore ∧
    (blinkTimeoutFireStale startBlinkClosure initialBlinkStore).status ≠ .failed ∧
    (blinkTimeoutFireStale startBlinkClosure initialBlinkStore).cameraActive = true ∧
    blinkTimeoutMs = 30000 := by
  refine ⟨?_, rfl, by norm_num [initialBlinkStore, requiredBlinks], rfl, ?_, ?_, ?_, rfl⟩
  · intro c store hst
    unfold blinkTimeoutFireStale
    exact if_neg (fun hand => hst hand.2)
  · unfold blinkTimeoutFireStale
    exact if_neg (by rintro ⟨-, h⟩; exact absurd h (by decide))
  · unfold blinkTimeoutFireStale
    rw [if_neg (by rintro ⟨-, h⟩; exact absurd h (by decide))]
    decide
  · unfold blinkTimeoutFireStale
    rw [if_neg (by rintro ⟨-, h⟩; exact absurd h (by decide))]
    rfl

/-- Witness for `blink_timeout_never_fires` at the start-path closure. -/
theorem blink_timeout_never_fires_witness :
    startBlinkClosure.status ≠ BlinkStatus.detecting ∧
    blinkTimeoutFireStale startBlinkClosure initialBlinkStore = initialBlinkStore :=
  ⟨by decide,
   blink_timeout_never_fires.1 startBlinkClosure initialBlinkStore (by decide)⟩

/-- C8 (code bug): the claim says the stored reference is the component-wise
mean of all 3 captured embeddings, [3,3,3] for captures [1,1,1], [3,3,3],
[5,5,5].  The final-capture averaging loop iterates the stale render-scope
`allDescriptors`, which excludes the just-captured third descriptor, so the
program stores the mean of the first two captures only - [2,2,2] here - while
the mean of all three (what `avgDescriptor` yields on the full list, and what
the claim demands) is [3,3,3]. -/
theorem enrollment_stale_average :
    enrollmentStoredDescriptor [1,1,1] [3,3,3] [5,5,5] = [2,2,2] ∧
    enrollmentStoredDescriptor [1,1,1] [3,3,3] [5,5,5] ≠ [3,3,3] ∧
    avgDescriptor [[1,1,1],[3,3,3],[5,5,5]] = [3,3,3] ∧
    (∀ userId email publicUrl,
      (finalizeEnrollment userId email [[1,1,1],[3,3,3]] publicUrl).face_descriptor
        = some (enrollmentStoredDescriptor [1,1,1] [3,3,3] [5,5,5])) := by
  have h2 : enrollmentStoredDescriptor [1,1,1] [3,3,3] [5,5,5] = [2,2,2] := by
    norm_num [enrollmentStoredDescriptor, avgDescriptor, List.range_succ]
  refine ⟨h2, ?_, by norm_num [avgDescriptor, List.range_succ], ?_⟩
  · rw [h2]
    intro h
    exact absurd (List.head_eq_of_cons_eq h) (by norm_num)
  · intro userId email publicUrl
    rfl

/-- C9: for any six ordered eye landmark points, the value computed by
`calculateEAR` - `(A + B) / (2 * C)` with `A = distance(eye[1], eye[5])`,
`B = distance(eye[2], eye[4])`, `C = distance(eye[0], eye[3])` - equals the
spec's formula (‖p1−p5‖ + ‖p2−p4‖) / (2·‖p0−p3‖), and the computation is
undefined (division by a zero horizontal distance) exactly when ‖p0−p3‖ = 0,
i.e. exactly when p0 = p3. -/
theorem calculateEAR_spec :
    ∀ e : EyePoints,
      ((Real.sqrt (earA e) + Real.sqrt (earB e)) / (2 * Real.sqrt (earC e))
        = (Real.sqrt (((e.p1.1 : ℝ) - e.p5.1)^2 + ((e.p1.2 : ℝ) - e.p5.2)^2)
            + Real.sqrt (((e.p2.1 : ℝ) - e.p4.1)^2 + ((e.p2.2 : ℝ) - e.p4.2)^2))
          / (2 * Real.sqrt (((e.p0.1 : ℝ) - e.p3.1)^2 + ((e.p0.2 : ℝ) - e.p3.2)^2))) ∧
      (earDefined e = false
        ↔ Real.sqrt (((e.p0.1 : ℝ) - e.p3.1)^2 + ((e.p0.2 : ℝ) - e.p3.2)^2) = 0) ∧
      (earDefined e = false ↔ e.p0 = e.p3) := by
  intro e
  have hA : ((earA e : ℚ) : ℝ)
      = ((e.p1.1 : ℝ) - e.p5.1)^2 + ((e.p1.2 : ℝ) - e.p5.2)^2 := by
    push_cast [earA, distanceSq]; ring
  have hB : ((earB e : ℚ) : ℝ)
      = ((e.p2.1 : ℝ) - e.p4.1)^2 + ((e.p2.2 : ℝ) - e.p4.2)^2 := by
    push_cast [earB, distanceSq]; ring
  have hC : ((earC e : ℚ) : ℝ)
      = ((e.p0.1 : ℝ) - e.p3.1)^2 + ((e.p0.2 : ℝ) - e.p3.2)^2 := by
    push_cast [earC, distanceSq]; ring
  have hdef : earDefined e = false ↔ earC e = 0 := by
    simp [earDefined]
  have h0 : (0 : ℚ) ≤ earC e := by unfold earC distanceSq; positivity
  refine ⟨by rw [← hA, ← hB, ← hC], ?_, ?_⟩
  · rw [← hC, hdef, Real.sqrt_eq_zero (by exact_mod_cast h0)]
    exact ⟨fun h => by exact_mod_cast h, fun h => by exact_mod_cast h⟩
  · rw [hdef]; exact distanceSq_eq_zero_iff e.p0 e.p3

/-- C10: completing the final enrollment capture upserts the profile with
`is_verified = true`, the averaged descriptor and the image URL, so the entry
decision of every subsequent login routes the user to face verification, not
back to registration. -/
theorem enrollment_routes_to_verification :
    ∀ (userId email : String) (descs : List (List ℚ)) (publicUrl : String),
      (finalizeEnrollment userId email descs publicUrl).is_verified = true ∧
      (finalizeEnrollment userId email descs publicUrl).face_descriptor
        = some (avgDescriptor descs) ∧
      (finalizeEnrollment userId email descs publicUrl).face_image_url = some publicUrl ∧
      profileEntryState (finalizeEnrollment userId email descs publicUrl)
        = .faceVerification ∧
      (∀ s : AppState, step s
          (.profileLoaded (finalizeEnrollment userId email descs publicUrl).face_descriptor.isSome
            (finalizeEnrollment userId email descs publicUrl).is_verified)
        = .faceVerification) := by
  intro userId email descs publicUrl
  refine ⟨rfl, rfl, rfl, by simp [profileEntryState, finalizeEnrollment], ?_⟩
  intro s
  cases s <;> simp [step, finalizeEnrollment]

/-- C4 (code bug): the claim says the EAR sequence [0.35, 0.10, 0.35] with
samples spaced more than 500ms apart yields blinkCount = 1, with blinks
counted on the eye-open edge.  In the program the interval callback reads
`isEyeClosed` from its creating render's closure, where it is false in every
interval ever created (no render that can invoke `startBlinkDetection` has
it true), so the open-edge guard at line 110 never passes and `setBlinkCount`
is unreachable: the count never changes, and the claim's sample sequence
yields 0, not 1.  On the mount path the closure even has `isActive = false`,
making every tick a no-op at line 84. -/
theorem blink_stale_never_counts :
    (∀ (c : BlinkClosure), c.isEyeClosed = false →
      ∀ (store : BlinkStore) (samples : List (ℚ × ℕ)),
        (blinkRunStale c store samples).blinkCount = store.blinkCount) ∧
    (blinkRunStale startBlinkClosure initialBlinkStore
        [(7/20, 0), (1/10, 501), (7/20, 1002)]).blinkCount = 0 ∧
    (blinkRunStale { startBlinkClosure with isActive := false } initialBlinkStore
        [(7/20, 0), (1/10, 501), (7/20, 1002)]) = initialBlinkStore := by
  have hmain : ∀ (c : BlinkClosure), c.isEyeClosed = false →
      ∀ (store : BlinkStore) (samples : List (ℚ × ℕ)),
        (blinkRunStale c store samples).blinkCount = store.blinkCount := by
    intro c hc store samples
    induction samples generalizing store with
    | nil => rfl
    | cons p ps ih =>
      have hstep : blinkRunStale c store (p :: ps)
          = blinkRunStale c (blinkTickStale c store p.1 p.2) ps := rfl
      rw [hstep, ih]
      unfold blinkTickStale
      rw [hc]
      split
      · rfl
      split
      · split <;> rfl
      · rw [if_neg (by simp)]
  refine ⟨hmain, ?_, ?_⟩
  · rw [hmain startBlinkClosure rfl]; rfl
  · rfl

/-- Witness for `blink_stale_never_counts` at the start-path closure. -/
theorem blink_stale_never_counts_witness :
    startBlinkClosure.isEyeClosed = false ∧
    (blinkRunStale startBlinkClosure initialBlinkStore
        [(1/10, 501), (7/20, 1002)]).blinkCount = initialBlinkStore.blinkCount :=
  ⟨rfl, blink_stale_never_counts.1 startBlinkClosure rfl initialBlinkStore _⟩

/-- C3: the store keeps at most one vote per (user, election) pair - an insert
whose pair is already present is rejected by the uniqueness constraint - and
when the insert returns the duplicate-key error, `submitVote` reports the
specific already-voted outcome (distinct from the generic failure), performs
no retry, and leaves the store exactly as it was. -/
theorem vote_uniqueness :
    (∀ (store : List VoteInsert) (f b : Bool) (userId electionId opt ip ua : String),
      uniquePairs store → uniquePairs (submitVote store f b userId electionId opt ip ua).1) ∧
    (∀ (store : List VoteInsert) (f b : Bool) (userId electionId opt ip ua : String),
      (∃ r ∈ store, r.user_id = userId ∧ r.election_id = electionId) →
        submitVote store f b userId electionId opt ip ua = (store, .alreadyVoted)) ∧
    SubmitOutcome.alreadyVoted ≠ SubmitOutcome.genericFailure := by
  refine ⟨?_, ?_, by decide⟩
  · intro store f b userId electionId opt ip ua hu
    unfold submitVote insertVote
    by_cases h : (store.any fun r =>
        r.user_id = (submitVoteRow f b userId electionId opt ip ua).user_id ∧
        r.election_id = (submitVoteRow f b userId electionId opt ip ua).election_id) = true
    · rw [if_pos h]; exact hu
    · rw [if_neg h]
      simp only [List.any_eq_true, decide_eq_true_eq, not_exists, not_and] at h
      unfold uniquePairs at hu ⊢
      rw [List.pairwise_append]
      refine ⟨hu, List.pairwise_singleton _ _, ?_⟩
      intro a ha b hb
      rw [List.mem_singleton] at hb
      subst hb
      intro hab
      exact h a ha hab.1 hab.2
  · intro store f b userId electionId opt ip ua ⟨r, hr, h1, h2⟩
    unfold submitVote insertVote
    rw [if_pos (List.any_eq_true.mpr ⟨r, hr, by simp [submitVoteRow, h1, h2]⟩)]
    simp

/-- Witness for `vote_uniqueness`: inserting into the empty store preserves
pair-uniqueness, and re-submitting for a pair already voted returns the
already-voted outcome with the store unchanged. -/
theorem vote_uniqueness_witness :
    uniquePairs ((submitVote [] true true "u" "e" "o" "i" "a").1) ∧
    submitVote [submitVoteRow true true "u" "e" "o" "i" "a"] false false "u" "e" "o2" "i2" "a2"
      = ([submitVoteRow true true "u" "e" "o" "i" "a"], .alreadyVoted) :=
  ⟨vote_uniqueness.1 [] true true "u" "e" "o" "i" "a" (List.Pairwise.nil),
   vote_uniqueness.2.1 _ false false "u" "e" "o2" "i2" "a2"
     ⟨submitVoteRow true true "u" "e" "o" "i" "a", List.mem_singleton.mpr rfl, rfl, rfl⟩⟩

/-- Unfolding one tick of `verifyRun`. -/
theorem verifyRun_cons (st : VerifyState) (d : Option (List ℚ))
    (ds : List (Option (List ℚ))) :
    verifyRun st (d :: ds)
      = if st.intervalActive then verifyRun (verifyTick st d) ds else st := rfl

/-- A cleared polling interval fires no further ticks. -/
theorem verifyRun_inactive (st : VerifyState) (dets : List (Option (List ℚ)))
    (h : st.intervalActive = false) : verifyRun st dets = st := by
  cases dets with
  | nil => rfl
  | cons d ds => rw [verifyRun_cons, if_neg (by simp [h])]

/-- Splitting a run of the verification interval. -/
theorem verifyRun_append (st : VerifyState) (l1 l2 : List (Option (List ℚ))) :
    verifyRun st (l1 ++ l2) = verifyRun (verifyRun st l1) l2 := by
  induction l1 generalizing st with
  | nil => rfl
  | cons d ds ih =>
    rw [List.cons_append, verifyRun_cons, verifyRun_cons]
    by_cases h : st.intervalActive = true
    · rw [if_pos h, if_pos h, ih]
    · have h' : st.intervalActive = false := by simpa using h
      rw [if_neg (by simp [h']), if_neg (by simp [h']), verifyRun_inactive st l2 h']

/-- A run of non-matching ticks that stays within the attempt budget only
increments the attempt counter. -/
theorem verifyRun_nonmatching (ref : List ℚ) :
    ∀ (dets : List (Option (List ℚ))) (st : VerifyState),
      st.reference = ref → st.status = .verifying → st.intervalActive = true →
      st.attempts + dets.length ≤ maxAttempts →
      (∀ d ∈ dets, nonMatching ref d) →
      verifyRun st dets = { st with attempts := st.attempts + dets.length } := by
  intro dets
  induction dets with
  | nil => intro st _ _ _ _ _; cases st; simp [verifyRun]
  | cons d ds ih =>
    intro st href hstat hact hle hnm
    rw [verifyRun_cons, if_pos (by rw [hact])]
    have hlt : st.attempts < maxAttempts := by
      simp only [List.length_cons] at hle; omega
    have htick : verifyTick st d = { st with attempts := st.attempts + 1 } := by
      unfold verifyTick
      rw [if_neg (by omega)]
      cases d with
      | none => rfl
      | some descriptor =>
        have hno := hnm (some descriptor) (List.mem_cons_self _ _) descriptor rfl
        rw [← href] at hno
        simp only [verifyAttempt]
        rw [if_neg hno]
    rw [htick,
      ih { st with attempts := st.attempts + 1 } href hstat hact
        (by simp only [List.length_cons] at hle ⊢; omega)
        (fun d' hd' => hnm d' (List.mem_cons_of_mem _ hd'))]
    cases st
    simp only [List.length_cons]
    congr 1
    omega

/-- The attempt counter of a verification session never exceeds the cap. -/
theorem verifyRun_attempts_le :
    ∀ (dets : List (Option (List ℚ))) (st : VerifyState),
      st.attempts ≤ maxAttempts → (verifyRun st dets).attempts ≤ maxAttempts := by
  intro dets
  induction dets with
  | nil => intro st h; exact h
  | cons d ds ih =>
    intro st h
    rw [verifyRun_cons]
    by_cases hact : st.intervalActive = true
    · rw [if_pos hact]
      apply ih
      unfold verifyTick
      by_cases hge : st.attempts ≥ maxAttempts
      · rw [if_pos hge]; exact h
      · rw [if_neg hge]
        cases d with
        | none =>
          simp only [verifyAttempt]
          show st.attempts + 1 ≤ maxAttempts; omega
        | some descriptor =>
          simp only [verifyAttempt]
          split
          · show st.attempts + 1 ≤ maxAttempts; omega
          · show st.attempts + 1 ≤ maxAttempts; omega
    · rw [if_neg hact]; exact h

/-- C6: a fresh verification session fed 50 non-matching polling ticks fails
on the following interval firing - status `failed`, an audit row with reason
"timeout", and the interval cleared - and the attempt counter never exceeds
the 50-tick cap (attempt 51 is never made: the 51st firing only observes the
exhausted budget). -/
theorem verify_timeout :
    (∀ (ref : List ℚ) (dets : List (Option (List ℚ))),
      dets.length = maxAttempts + 1 → (∀ d ∈ dets, nonMatching ref d) →
      (verifyRun (freshVerifyState ref) dets).status = .failed ∧
      (verifyRun (freshVerifyState ref) dets).audit = [.verificationFailed "timeout"] ∧
      (verifyRun (freshVerifyState ref) dets).intervalActive = false) ∧
    (∀ (st : VerifyState) (dets : List (Option (List ℚ))),
      st.attempts ≤ maxAttempts → (verifyRun st dets).attempts ≤ maxAttempts) ∧
    maxAttempts = 50 ∧ verifyPollMs = 100 := by
  refine ⟨?_, fun st dets h => verifyRun_attempts_le dets st h, rfl, rfl⟩
  intro ref dets hlen hnm
  have hta : (dets.take maxAttempts).length = maxAttempts := by
    rw [List.length_take, hlen]; omega
  have hdl : (dets.drop maxAttempts).length = 1 := by
    rw [List.length_drop, hlen]; omega
  obtain ⟨d, hd⟩ := List.length_eq_one.mp hdl
  have h50 : verifyRun (freshVerifyState ref) (dets.take maxAttempts)
      = { freshVerifyState ref with attempts := maxAttempts } := by
    have := verifyRun_nonmatching ref (dets.take maxAttempts) (freshVerifyState ref)
      rfl rfl rfl (by rw [hta]; simp [freshVerifyState])
      (fun d' hd' => hnm d' (List.mem_of_mem_take hd'))
    rw [this, hta]
    rfl
  have hfin : verifyRun (freshVerifyState ref) dets
      = verifyTick { freshVerifyState ref with attempts := maxAttempts } d := by
    conv_lhs => rw [← List.take_append_drop maxAttempts dets]
    have hact : ({ freshVerifyState ref with attempts := maxAttempts }
        : VerifyState).intervalActive = true := rfl
    rw [verifyRun_append, h50, hd, verifyRun_cons, if_pos hact]
    rfl
  rw [hfin]
  unfold verifyTick
  rw [if_pos (le_refl maxAttempts)]
  exact ⟨rfl, rfl, rfl⟩

/-- Witness for `verify_timeout`: 51 interval firings with no face detected. -/
theorem verify_timeout_witness :
    (verifyRun (freshVerifyState [0]) (List.replicate 51 none)).status = .failed ∧
    (verifyRun (freshVerifyState [0]) (List.replicate 51 none)).audit
      = [.verificationFailed "timeout"] ∧
    (verifyRun (freshVerifyState [0]) (List.replicate 51 none)).intervalActive = false :=
  verify_timeout.1 [0] (List.replicate 51 none) (by simp [maxAttempts])
    (fun d hd => by
      rw [List.eq_of_mem_replicate hd]
      intro descriptor h
      exact Option.noConfusion h)

/-- C7: on any tick within the attempt budget whose detection yields a
descriptor whose Euclidean distance to the stored reference is strictly below
the 0.6 threshold, the session transitions to `success` immediately (a single
matching frame suffices), the interval is cleared, and an audit row carrying
the (squared) distance, the (squared) threshold - whose square root is 0.6 -
and the attempt count is emitted; the counted attempt is the tick's own, so a
matching first tick of a fresh session records attempts = 1. -/
theorem verify_match_success :
    ∀ (st : VerifyState) (descriptor : List ℚ),
      st.attempts < maxAttempts →
      Real.sqrt ((euclideanDistanceSq st.reference descriptor : ℚ) : ℝ) < 3/5 →
      (verifyTick st (some descriptor)).status = .success ∧
      (verifyTick st (some descriptor)).intervalActive = false ∧
      (verifyTick st (some descriptor)).attempts = st.attempts + 1 ∧
      (verifyTick st (some descriptor)).audit
        = st.audit ++ [.verificationSuccess (euclideanDistanceSq st.reference descriptor)
            matchThresholdSq (st.attempts + 1)] ∧
      Real.sqrt ((matchThresholdSq : ℚ) : ℝ) = 3/5 := by
  intro st descriptor hlt hdist
  have hsq : ((matchThresholdSq : ℚ) : ℝ) = (3/5 : ℝ)^2 := by
    norm_num [matchThresholdSq]
  have hd2 : euclideanDistanceSq st.reference descriptor < matchThresholdSq := by
    have h1 : ((euclideanDistanceSq st.reference descriptor : ℚ) : ℝ) < (3/5 : ℝ)^2 :=
      (Real.sqrt_lt' (by norm_num)).mp hdist
    rw [← hsq] at h1
    exact_mod_cast h1
  unfold verifyTick
  rw [if_neg (by omega)]
  simp only [verifyAttempt]
  rw [if_pos hd2]
  refine ⟨rfl, rfl, rfl, rfl, ?_⟩
  rw [hsq]
  exact Real.sqrt_sq (by norm_num)

/-- Witness for `verify_match_success` on the first tick of a fresh session
whose detected descriptor equals the reference (distance 0). -/
theorem verify_match_success_witness :
    (verifyTick (freshVerifyState [0]) (some [0])).status = .success ∧
    (verifyTick (freshVerifyState [0]) (some [0])).intervalActive = false ∧
    (verifyTick (freshVerifyState [0]) (some [0])).attempts = 0 + 1 ∧
    (verifyTick (freshVerifyState [0]) (some [0])).audit
      = [] ++ [.verificationSuccess (euclideanDistanceSq (freshVerifyState [0]).reference [0])
          matchThresholdSq (0 + 1)] ∧
    Real.sqrt ((matchThresholdSq : ℚ) : ℝ) = 3/5 :=
  verify_match_success (freshVerifyState [0]) [0]
    (by norm_num [freshVerifyState, maxAttempts])
    (by norm_num [freshVerifyState, euclideanDistanceSq, Real.sqrt_zero])

/-- A transition can land in `blinkVerification` only from a face-verification
success (or by stuttering there). -/
theorem step_eq_blinkVerification (s : AppState) (e : Event) :
    step s e = .blinkVerification →
    (s = .faceVerification ∧ e = .verifyComplete true) ∨ s = .blinkVerification := by
  intro h
  cases e <;> cases s <;> simp_all [step]
  all_goals split_ifs at h <;> simp_all

/-- A transition can land in `voting` only from a blink completion (or by
stuttering there). -/
theorem step_eq_voting (s : AppState) (e : Event) :
    step s e = .voting →
    (s = .blinkVerification ∧ e = .blinkComplete) ∨ s = .voting := by
  intro h
  cases e <;> cases s <;> simp_all [step]
  all_goals split_ifs at h <;> simp_all

/-- A transition can land in `complete` only from a vote completion (or by
stuttering there). -/
theorem step_eq_complete (s : AppState) (e : Event) :
    step s e = .complete →
    (s = .voting ∧ e = .voteComplete) ∨ s = .complete := by
  intro h
  cases e <;> cases s <;> simp_all [step]
  all_goals split_ifs at h <;> simp_all

/-- Any trace from `auth` that reaches blink verification contains a
face-verification success, and any trace that reaches voting or completion
contains a face-verification success strictly before a blink completion. -/
theorem reach_requires_verify_and_blink :
    ∀ es : List Event,
      (run .auth es = .blinkVerification →
        ∃ i, i < es.length ∧ es.get? i = some (.verifyComplete true)) ∧
      (run .auth es = .voting →
        ∃ i j, i < j ∧ j < es.length ∧ es.get? i = some (.verifyComplete true) ∧
          es.get? j = some .blinkComplete) ∧
      (run .auth es = .complete →
        ∃ i j, i < j ∧ j < es.length ∧ es.get? i = some (.verifyComplete true) ∧
          es.get? j = some .blinkComplete) := by
  intro es
  induction es using List.reverseRecOn with
  | nil => refine ⟨?_, ?_, ?_⟩ <;> intro h <;> simp [run] at h
  | append_singleton es e ih =>
    have hrun : run .auth (es ++ [e]) = step (run .auth es) e := by
      simp [run, List.foldl_append]
    have hget : ∀ i, i < es.length → (es ++ [e]).get? i = es.get? i := fun i hi =>
      List.get?_append hi
    have hlast : (es ++ [e]).get? es.length = some e := List.get?_concat_length es e
    have hlen : (es ++ [e]).length = es.length + 1 := by simp
    refine ⟨?_, ?_, ?_⟩
    · intro h
      rw [hrun] at h
      rcases step_eq_blinkVerification _ _ h with ⟨_, he⟩ | hs
      · exact ⟨es.length, by omega, by rw [hlast, he]⟩
      · obtain ⟨i, hi, hgi⟩ := ih.1 hs
        exact ⟨i, by omega, by rw [hget i hi]; exact hgi⟩
    · intro h
      rw [hrun] at h
      rcases step_eq_voting _ _ h with ⟨hs, he⟩ | hs
      · obtain ⟨i, hi, hgi⟩ := ih.1 hs
        exact ⟨i, es.length, hi, by omega, by rw [hget i hi]; exact hgi,
          by rw [hlast, he]⟩
      · obtain ⟨i, j, hij, hj, hgi, hgj⟩ := ih.2.1 hs
        exact ⟨i, j, hij, by omega, by rw [hget i (lt_trans hij hj)]; exact hgi,
          by rw [hget j hj]; exact hgj⟩
    · intro h
      rw [hrun] at h
      rcases step_eq_complete _ _ h with ⟨hs, he⟩ | hs
      · obtain ⟨i, j, hij, hj, hgi, hgj⟩ := ih.2.1 hs
        exact ⟨i, j, hij, by omega, by rw [hget i (lt_trans hij hj)]; exact hgi,
          by rw [hget j hj]; exact hgj⟩
      · obtain ⟨i, j, hij, hj, hgi, hgj⟩ := ih.2.2 hs
        exact ⟨i, j, hij, by omega, by rw [hget i (lt_trans hij hj)]; exact hgi,
          by rw [hget j hj]; exact hgj⟩

/-- C1: in every trace of the session state machine from `auth`, the voting
state (and the complete state after it) is reached only after a
face-verification success followed strictly later by a blink-verification
completion; the voting and blink-verification states admit no other entry
edge; and "vote again" from the complete state transitions to face
verification, never directly to voting. -/
theorem session_no_skip :
    (∀ es : List Event, run .auth es = .voting ∨ run .auth es = .complete →
      ∃ i j, i < j ∧ j < es.length ∧ es.get? i = some (.verifyComplete true) ∧
        es.get? j = some .blinkComplete) ∧
    (∀ (s : AppState) (e : Event), step s e = .voting →
      (s = .blinkVerification ∧ e = .blinkComplete) ∨ s = .voting) ∧
    (∀ (s : AppState) (e : Event), step s e = .blinkVerification →
      (s = .faceVerification ∧ e = .verifyComplete true) ∨ s = .blinkVerification) ∧
    step .complete .voteAgain = .faceVerification ∧
    step .complete .voteAgain ≠ .voting := by
  refine ⟨?_, step_eq_voting, step_eq_blinkVerification, rfl, by decide⟩
  intro es h
  rcases h with h | h
  · exact (reach_requires_verify_and_blink es).2.1 h
  · exact (reach_requires_verify_and_blink es).2.2 h

/-- Witness for `session_no_skip` on the trace profile-loaded (verified),
verify success, blink complete. -/
theorem session_no_skip_witness :
    ∃ i j, i < j ∧
      j < ([Event.profileLoaded true true, Event.verifyComplete true,
            Event.blinkComplete]).length ∧
      ([Event.profileLoaded true true, Event.verifyComplete true,
        Event.blinkComplete]).get? i = some (.verifyComplete true) ∧
      ([Event.profileLoaded true true, Event.verifyComplete true,
        Event.blinkComplete]).get? j = some .blinkComplete :=
  session_no_skip.1 _ (Or.inl (by decide))

end BlinkAndVote
